import Mathlib

/-!
Verification of the rock-paper-scissors game (sasso-carta-forbice).

The development shallowly embeds the game logic of `src/gameLogic.ts`
(`determineWinner`, `playRound`) and the session-state handlers of the
`App` component (`handleModeChange`, `handleHumanMove`,
`handleComputerVsComputer`, `startNewRound`, `resetGame`).  Random move
sampling (`getRandomMove`) is modelled by passing the sampled moves as
explicit arguments to the handlers.  The React `useEffect` timer for
computer-vs-computer mode is modelled as an explicit armed/not-armed
timer alongside the game state.
-/

namespace Rps

/-- The three enumerated moves: `type Move = 'rock' | 'paper' | 'scissors'`. -/
inductive Move where
  | rock
  | paper
  | scissors
deriving DecidableEq, Repr

/-- The two game modes: `type GameMode = 'human-vs-computer' | 'computer-vs-computer'`. -/
inductive GameMode where
  | humanVsComputer
  | computerVsComputer
deriving DecidableEq, Repr

/-- The result classification `Player | 'tie'` used as the winner of a round. -/
inductive Winner where
  | player1
  | player2
  | tie
deriving DecidableEq, Repr

/-- `interface GameResult { winner; player1Move; player2Move }`. -/
structure GameResult where
  winner : Winner
  player1Move : Move
  player2Move : Move
deriving DecidableEq, Repr

/-- The `scores` record inside `GameState`: player1, player2 and tie counters. -/
structure Scores where
  player1 : Nat
  player2 : Nat
  ties : Nat
deriving DecidableEq, Repr

/-- `interface GameState` from `src/types.ts`: mode, current round counter,
score counters, optional last result, and the playing flag. -/
structure GameState where
  mode : GameMode
  currentRound : Nat
  scores : Scores
  lastResult : Option GameResult
  isPlaying : Bool
deriving DecidableEq, Repr

/-- The `winConditions` table of `determineWinner`: each move maps to the
list of moves it beats (`rock: ['scissors'], paper: ['rock'], scissors: ['paper']`). -/
def winConditions : Move → List Move
  | Move.rock => [Move.scissors]
  | Move.paper => [Move.rock]
  | Move.scissors => [Move.paper]

/-- `determineWinner` from `src/gameLogic.ts`: identical moves tie, otherwise
player1 wins exactly when `winConditions[player1Move].includes(player2Move)`. -/
def determineWinner (player1Move player2Move : Move) : Winner :=
  if player1Move = player2Move then
    Winner.tie
  else if (winConditions player1Move).contains player2Move then
    Winner.player1
  else
    Winner.player2

/-- `playRound` from `src/gameLogic.ts`: package the winner with both moves. -/
def playRound (player1Move player2Move : Move) : GameResult :=
  { winner := determineWinner player1Move player2Move
    player1Move := player1Move
    player2Move := player2Move }

/-- `initialGameState` from `App.tsx`: human-vs-computer mode, round 0,
all counters zero, no last result, not playing. -/
def initialGameState : GameState :=
  { mode := GameMode.humanVsComputer
    currentRound := 0
    scores := { player1 := 0, player2 := 0, ties := 0 }
    lastResult := none
    isPlaying := false }

/-- `handleModeChange`: replace the whole state with the initial state,
keeping only the newly selected mode. -/
def handleModeChange (mode : GameMode) (_s : GameState) : GameState :=
  { initialGameState with mode := mode }

/-- `handleHumanMove`: no-op unless playing; otherwise play the human move
against the sampled computer move, bump the round counter, add one to the
winner's counter, store the result and stop playing.  The computer's
randomly sampled move is passed explicitly. -/
def handleHumanMove (move computerMove : Move) (s : GameState) : GameState :=
  if !s.isPlaying then s
  else
    let result := playRound move computerMove
    { s with
      currentRound := s.currentRound + 1
      scores :=
        { player1 := s.scores.player1 + (if result.winner = Winner.player1 then 1 else 0)
          player2 := s.scores.player2 + (if result.winner = Winner.player2 then 1 else 0)
          ties := s.scores.ties + (if result.winner = Winner.tie then 1 else 0) }
      lastResult := some result
      isPlaying := false }

/-- `handleComputerVsComputer`: no-op unless playing; otherwise play the two
sampled computer moves against each other and update the state exactly as
`handleHumanMove` does.  The two sampled moves are passed explicitly. -/
def handleComputerVsComputer (player1Move player2Move : Move) (s : GameState) : GameState :=
  if !s.isPlaying then s
  else
    let result := playRound player1Move player2Move
    { s with
      currentRound := s.currentRound + 1
      scores :=
        { player1 := s.scores.player1 + (if result.winner = Winner.player1 then 1 else 0)
          player2 := s.scores.player2 + (if result.winner = Winner.player2 then 1 else 0)
          ties := s.scores.ties + (if result.winner = Winner.tie then 1 else 0) }
      lastResult := some result
      isPlaying := false }

/-- `startNewRound`: set the playing flag and clear the last result,
leaving everything else as it was. -/
def startNewRound (s : GameState) : GameState :=
  { s with isPlaying := true, lastResult := none }

/-- `resetGame`: back to the initial state, keeping the current mode. -/
def resetGame (s : GameState) : GameState :=
  { initialGameState with mode := s.mode }

/-- Modelled from the spec: the beats-relation written from the spec's own
words — rock beats scissors, scissors beats paper, paper beats rock.  Used
only to compare `determineWinner` against the spec's reference table. -/
def specBeats : Move → Move → Bool
  | Move.rock, Move.scissors => true
  | Move.scissors, Move.paper => true
  | Move.paper, Move.rock => true
  | _, _ => false

/-- Modelled from the spec: the reference resolver — identical moves tie,
otherwise first-wins exactly when the first move beats the second. -/
def specResolve (a b : Move) : Winner :=
  if a = b then Winner.tie
  else if specBeats a b then Winner.player1
  else Winner.player2

/-- Flip a winner between the two player outcomes, keeping ties: used to
state the swap-antisymmetry of `determineWinner`. -/
def flipWinner : Winner → Winner
  | Winner.player1 => Winner.player2
  | Winner.player2 => Winner.player1
  | Winner.tie => Winner.tie

/-- C1: the move resolver equals the reference win table: identical moves
tie, otherwise the outcome is player1 exactly when the first move beats the
second under rock>scissors>paper>rock; in particular `determineWinner x x = tie`,
`determineWinner rock scissors = player1` and `determineWinner scissors rock = player2`. -/
theorem determineWinner_matches_spec_table (a b : Move) :
    determineWinner a b = specResolve a b ∧
    determineWinner a a = Winner.tie ∧
    determineWinner Move.rock Move.scissors = Winner.player1 ∧
    determineWinner Move.scissors Move.rock = Winner.player2 := by
  cases a <;> cases b <;> decide

/-- C3: swap antisymmetry of the resolver: if `determineWinner a b` is
player1 then swapping the arguments yields player2, if it is player2 the
swap yields player1, ties stay ties, and the two orientations are never
both player1 or both player2. -/
theorem determineWinner_swap_antisym (a b : Move) :
    (determineWinner a b = Winner.player1 → determineWinner b a = Winner.player2) ∧
    (determineWinner a b = Winner.player2 → determineWinner b a = Winner.player1) ∧
    (determineWinner a b = Winner.tie → determineWinner b a = Winner.tie) ∧
    ¬(determineWinner a b = Winner.player1 ∧ determineWinner b a = Winner.player1) ∧
    ¬(determineWinner a b = Winner.player2 ∧ determineWinner b a = Winner.player2) ∧
    determineWinner b a = flipWinner (determineWinner a b) := by
  cases a <;> cases b <;> decide

/-- Witness for C3 at the concrete pair (rock, scissors). -/
theorem determineWinner_swap_antisym_witness :
    (determineWinner Move.rock Move.scissors = Winner.player1 →
      determineWinner Move.scissors Move.rock = Winner.player2) ∧
    (determineWinner Move.rock Move.scissors = Winner.player2 →
      determineWinner Move.scissors Move.rock = Winner.player1) ∧
    (determineWinner Move.rock Move.scissors = Winner.tie →
      determineWinner Move.scissors Move.rock = Winner.tie) ∧
    ¬(determineWinner Move.rock Move.scissors = Winner.player1 ∧
      determineWinner Move.scissors Move.rock = Winner.player1) ∧
    ¬(determineWinner Move.rock Move.scissors = Winner.player2 ∧
      determineWinner Move.scissors Move.rock = Winner.player2) ∧
    determineWinner Move.scissors Move.rock =
      flipWinner (determineWinner Move.rock Move.scissors) :=
  determineWinner_swap_antisym Move.rock Move.scissors

/-- C4: totality of the beats relation: for distinct moves the resolver
never ties, and exactly one orientation of the pair is in the win table
(`winConditions`), so exactly one of the two players wins. -/
theorem determineWinner_total_on_distinct (a b : Move) (h : a ≠ b) :
    determineWinner a b ≠ Winner.tie ∧
    (determineWinner a b = Winner.player1 ∨ determineWinner a b = Winner.player2) ∧
    (((winConditions a).contains b = true ∧ (winConditions b).contains a = false) ∨
     ((winConditions a).contains b = false ∧ (winConditions b).contains a = true)) := by
  cases a <;> cases b <;> first | exact absurd rfl h | decide

/-- Witness for C4 at the concrete distinct pair (rock, paper). -/
theorem determineWinner_total_on_distinct_witness :
    Move.rock ≠ Move.paper ∧
    (determineWinner Move.rock Move.paper ≠ Winner.tie ∧
     (determineWinner Move.rock Move.paper = Winner.player1 ∨
      determineWinner Move.rock Move.paper = Winner.player2) ∧
     (((winConditions Move.rock).contains Move.paper = true ∧
       (winConditions Move.paper).contains Move.rock = false) ∨
      ((winConditions Move.rock).contains Move.paper = false ∧
       (winConditions Move.paper).contains Move.rock = true))) :=
  ⟨by decide, determineWinner_total_on_distinct Move.rock Move.paper (by decide)⟩

/-- C5: both reset operations zero the round counter and all three score
counters and end not playing; `resetGame` keeps the mode while
`handleModeChange` records the newly selected mode.  Both also clear the
stored last result. -/
theorem reset_operations_zero_counters (s : GameState) (m : GameMode) :
    (resetGame s).currentRound = 0 ∧
    (resetGame s).scores.player1 = 0 ∧
    (resetGame s).scores.player2 = 0 ∧
    (resetGame s).scores.ties = 0 ∧
    (resetGame s).isPlaying = false ∧
    (resetGame s).mode = s.mode ∧
    (resetGame s).lastResult = none ∧
    (handleModeChange m s).currentRound = 0 ∧
    (handleModeChange m s).scores.player1 = 0 ∧
    (handleModeChange m s).scores.player2 = 0 ∧
    (handleModeChange m s).scores.ties = 0 ∧
    (handleModeChange m s).isPlaying = false ∧
    (handleModeChange m s).mode = m ∧
    (handleModeChange m s).lastResult = none := by
  simp [resetGame, handleModeChange, initialGameState]

/-- C6: end-to-end scenario: from a freshly started human-vs-computer
session, if the computer samples scissors and the human plays rock, the
round counter becomes 1, player1's score becomes 1, the other counters
stay 0, playing is false, and the stored last result is
(player1 wins, rock, scissors). -/
theorem fresh_session_rock_vs_scissors :
    (handleHumanMove Move.rock Move.scissors (startNewRound initialGameState)).currentRound = 1 ∧
    (handleHumanMove Move.rock Move.scissors (startNewRound initialGameState)).scores.player1 = 1 ∧
    (handleHumanMove Move.rock Move.scissors (startNewRound initialGameState)).scores.player2 = 0 ∧
    (handleHumanMove Move.rock Move.scissors (startNewRound initialGameState)).scores.ties = 0 ∧
    (handleHumanMove Move.rock Move.scissors (startNewRound initialGameState)).isPlaying = false ∧
    (handleHumanMove Move.rock Move.scissors (startNewRound initialGameState)).lastResult =
      some { winner := Winner.player1, player1Move := Move.rock, player2Move := Move.scissors } := by
  decide

/-- C8: `startNewRound` from any state sets the playing flag, clears the
last result, and leaves the mode, round counter and all three score
counters unchanged. -/
theorem startNewRound_frame (s : GameState) :
    (startNewRound s).isPlaying = true ∧
    (startNewRound s).lastResult = none ∧
    (startNewRound s).mode = s.mode ∧
    (startNewRound s).currentRound = s.currentRound ∧
    (startNewRound s).scores = s.scores := by
  simp [startNewRound]

/-- C10: round-completing handlers guard on the playing flag: when the
session is not playing, `handleHumanMove` and `handleComputerVsComputer`
leave the whole state unchanged. -/
theorem handlers_noop_when_not_playing (s : GameState) (h : s.isPlaying = false)
    (mv cm p1 p2 : Move) :
    handleHumanMove mv cm s = s ∧ handleComputerVsComputer p1 p2 s = s := by
  constructor
  · simp [handleHumanMove, h]
  · simp [handleComputerVsComputer, h]

/-- Witness for C10 at the initial state, which is not playing. -/
theorem handlers_noop_when_not_playing_witness :
    initialGameState.isPlaying = false ∧
    (handleHumanMove Move.rock Move.scissors initialGameState = initialGameState ∧
     handleComputerVsComputer Move.paper Move.rock initialGameState = initialGameState) :=
  ⟨rfl, handlers_noop_when_not_playing initialGameState rfl
    Move.rock Move.scissors Move.paper Move.rock⟩

/-- States reachable from the initial application state by the five
operations the component exposes (with the randomly sampled moves
quantified over all possibilities). -/
inductive Reachable : GameState → Prop
  | init : Reachable initialGameState
  | modeChange (m : GameMode) {s : GameState} : Reachable s → Reachable (handleModeChange m s)
  | humanMove (mv cm : Move) {s : GameState} : Reachable s → Reachable (handleHumanMove mv cm s)
  | cvcRound (p1 p2 : Move) {s : GameState} :
      Reachable s → Reachable (handleComputerVsComputer p1 p2 s)
  | startRound {s : GameState} : Reachable s → Reachable (startNewRound s)
  | reset {s : GameState} : Reachable s → Reachable (resetGame s)

/-- Exactly one of the three counters grows by one between two states, the
other two staying put. -/
def bumpsExactlyOne (s t : GameState) : Prop :=
  (t.scores.player1 = s.scores.player1 + 1 ∧ t.scores.player2 = s.scores.player2 ∧
    t.scores.ties = s.scores.ties) ∨
  (t.scores.player1 = s.scores.player1 ∧ t.scores.player2 = s.scores.player2 + 1 ∧
    t.scores.ties = s.scores.ties) ∨
  (t.scores.player1 = s.scores.player1 ∧ t.scores.player2 = s.scores.player2 ∧
    t.scores.ties = s.scores.ties + 1)

/-- A completed round (via `handleHumanMove` on a playing state) bumps the
round counter by one and exactly one of the three counters by one. -/
theorem handleHumanMove_round_effect (mv cm : Move) (s : GameState)
    (h : s.isPlaying = true) :
    (handleHumanMove mv cm s).currentRound = s.currentRound + 1 ∧
    bumpsExactlyOne s (handleHumanMove mv cm s) := by
  refine ⟨by simp [handleHumanMove, h], ?_⟩
  rcases hw : determineWinner mv cm <;>
    simp [handleHumanMove, h, playRound, bumpsExactlyOne, hw]

/-- `handleComputerVsComputer` performs the same state update as
`handleHumanMove` on the two sampled moves. -/
theorem handleComputerVsComputer_eq_handleHumanMove (p1 p2 : Move) (s : GameState) :
    handleComputerVsComputer p1 p2 s = handleHumanMove p1 p2 s := rfl

/-- C2: session-state invariant: every completed round (human or
computer-vs-computer) bumps the round counter by exactly one and exactly
one of the three counters by one, and consequently in every reachable
state the sum player1 + player2 + ties equals the round counter. -/
theorem session_counter_invariant (s : GameState) (h : Reachable s)
    (mv cm p1 p2 : Move) :
    s.scores.player1 + s.scores.player2 + s.scores.ties = s.currentRound ∧
    (s.isPlaying = true →
      ((handleHumanMove mv cm s).currentRound = s.currentRound + 1 ∧
        bumpsExactlyOne s (handleHumanMove mv cm s)) ∧
      ((handleComputerVsComputer p1 p2 s).currentRound = s.currentRound + 1 ∧
        bumpsExactlyOne s (handleComputerVsComputer p1 p2 s))) := by
  refine ⟨?_, fun hp => ⟨handleHumanMove_round_effect mv cm s hp, ?_⟩⟩
  · induction h with
    | init => rfl
    | modeChange m _ _ => simp [handleModeChange, initialGameState]
    | humanMove mv cm _ ih =>
        rename_i t _
        cases hp : t.isPlaying with
        | false => simpa [handleHumanMove, hp] using ih
        | true =>
            obtain ⟨hr, hb⟩ := handleHumanMove_round_effect mv cm t hp
            rcases hb with ⟨h1, h2, h3⟩ | ⟨h1, h2, h3⟩ | ⟨h1, h2, h3⟩ <;>
              rw [hr, h1, h2, h3] <;> omega
    | cvcRound p1 p2 _ ih =>
        rename_i t _
        rw [handleComputerVsComputer_eq_handleHumanMove]
        cases hp : t.isPlaying with
        | false => simpa [handleHumanMove, hp] using ih
        | true =>
            obtain ⟨hr, hb⟩ := handleHumanMove_round_effect p1 p2 t hp
            rcases hb with ⟨h1, h2, h3⟩ | ⟨h1, h2, h3⟩ | ⟨h1, h2, h3⟩ <;>
              rw [hr, h1, h2, h3] <;> omega
    | startRound _ ih => simpa [startNewRound] using ih
    | reset _ _ => simp [resetGame, initialGameState]
  · rw [handleComputerVsComputer_eq_handleHumanMove]
    exact handleHumanMove_round_effect p1 p2 s hp

/-- Witness for C2 at the freshly started (hence reachable and playing)
initial session, with concrete sampled moves. -/
theorem session_counter_invariant_witness :
    (startNewRound initialGameState).scores.player1 +
        (startNewRound initialGameState).scores.player2 +
        (startNewRound initialGameState).scores.ties =
      (startNewRound initialGameState).currentRound ∧
    ((startNewRound initialGameState).isPlaying = true →
      ((handleHumanMove Move.rock Move.scissors (startNewRound initialGameState)).currentRound =
          (startNewRound initialGameState).currentRound + 1 ∧
        bumpsExactlyOne (startNewRound initialGameState)
          (handleHumanMove Move.rock Move.scissors (startNewRound initialGameState))) ∧
      ((handleComputerVsComputer Move.paper Move.rock
            (startNewRound initialGameState)).currentRound =
          (startNewRound initialGameState).currentRound + 1 ∧
        bumpsExactlyOne (startNewRound initialGameState)
          (handleComputerVsComputer Move.paper Move.rock (startNewRound initialGameState)))) :=
  session_counter_invariant (startNewRound initialGameState)
    (Reachable.startRound Reachable.init) Move.rock Move.scissors Move.paper Move.rock

/-- Game state paired with the timer of the `useEffect` hook: `timerArmed`
records whether a `setTimeout(handleComputerVsComputer, 1000)` is pending. -/
structure SystemState where
  game : GameState
  timerArmed : Bool
deriving DecidableEq, Repr

/-- The effect's scheduling condition: a timer is pending exactly when the
mode is computer-vs-computer and the session is playing (the effect arms
the timer under this condition and its cleanup clears it whenever either
dependency changes). -/
def scheduledTimer (g : GameState) : Bool :=
  (g.mode == GameMode.computerVsComputer) && g.isPlaying

/-- Run a state update and then reconcile the effect: the timer ends armed
exactly when the scheduling condition holds on the new state (the cleanup
has cleared any previously pending timer whose dependencies changed). -/
def applyUpdate (f : GameState → GameState) (sys : SystemState) : SystemState :=
  { game := f sys.game, timerArmed := scheduledTimer (f sys.game) }

/-- The timer firing: only a pending timer runs `handleComputerVsComputer`
on the two freshly sampled moves; an unarmed timer does nothing. -/
def fireTimer (p1 p2 : Move) (sys : SystemState) : SystemState :=
  if sys.timerArmed then applyUpdate (handleComputerVsComputer p1 p2) sys
  else sys

/-- C7: stale-completion cancellation: after a mode switch or a reset, no
timer is armed, so a subsequently firing scheduled resolution leaves the
new session untouched — whatever was pending before the switch. -/
theorem stale_timer_never_fires (sys : SystemState) (m : GameMode) (p1 p2 : Move) :
    (applyUpdate (handleModeChange m) sys).timerArmed = false ∧
    fireTimer p1 p2 (applyUpdate (handleModeChange m) sys) =
      applyUpdate (handleModeChange m) sys ∧
    (applyUpdate resetGame sys).timerArmed = false ∧
    fireTimer p1 p2 (applyUpdate resetGame sys) = applyUpdate resetGame sys := by
  refine ⟨?_, ?_, ?_, ?_⟩ <;>
    simp [fireTimer, applyUpdate, scheduledTimer, handleModeChange, resetGame,
      initialGameState]

/-- The five operations the component exposes, with sampled moves explicit. -/
inductive GameOp where
  | modeChange (m : GameMode)
  | humanMove (mv cm : Move)
  | cvcRound (p1 p2 : Move)
  | startRound
  | newGame
deriving DecidableEq, Repr

/-- Dispatch an operation to its handler. -/
def applyOp : GameOp → GameState → GameState
  | GameOp.modeChange m, s => handleModeChange m s
  | GameOp.humanMove mv cm, s => handleHumanMove mv cm s
  | GameOp.cvcRound p1 p2, s => handleComputerVsComputer p1 p2 s
  | GameOp.startRound, s => startNewRound s
  | GameOp.newGame, s => resetGame s

/-- All four session counters of a state are zero. -/
def countersZero (s : GameState) : Prop :=
  s.currentRound = 0 ∧ s.scores.player1 = 0 ∧ s.scores.player2 = 0 ∧ s.scores.ties = 0

/-- The round counter and the three score counters never decrease from `s`
to `t`. -/
def countersMonotone (s t : GameState) : Prop :=
  s.currentRound ≤ t.currentRound ∧ s.scores.player1 ≤ t.scores.player1 ∧
    s.scores.player2 ≤ t.scores.player2 ∧ s.scores.ties ≤ t.scores.ties

/-- C9 as stated: every operation is counter-monotone, and the only
operation taking a state with nonzero counters to all-zero counters is the
explicit new-game action. -/
def countersResetOnlyByNewGame : Prop :=
  ∀ (s : GameState) (op : GameOp),
    countersMonotone s (applyOp op s) ∧
    (countersZero (applyOp op s) → op = GameOp.newGame ∨ countersZero s)

/-- Counterexample to C9 as stated: from the reachable state obtained by
winning the first round (player1 score 1), a mode change — which is not
the new-game action — drops the player1 counter back to 0, violating both
monotonicity and reset exclusivity. -/
theorem countersResetOnlyByNewGame_cex : ¬ countersResetOnlyByNewGame := by
  intro h
  have hc := h (handleHumanMove Move.rock Move.scissors (startNewRound initialGameState))
    (GameOp.modeChange GameMode.computerVsComputer)
  unfold countersMonotone countersZero at hc
  revert hc
  decide

/-- C9 amended: every operation other than mode change and new-game is
counter-monotone, and the only operations taking a state with nonzero
counters to all-zero counters are the explicit new-game action and the
mode change. -/
theorem counters_monotone_and_reset_exclusivity (s : GameState) (op : GameOp) :
    ((∀ m, op ≠ GameOp.modeChange m) → op ≠ GameOp.newGame →
      countersMonotone s (applyOp op s)) ∧
    (countersZero (applyOp op s) →
      op = GameOp.newGame ∨ (∃ m, op = GameOp.modeChange m) ∨ countersZero s) := by
  cases op with
  | modeChange m =>
      exact ⟨fun hop _ => absurd rfl (hop m), fun _ => Or.inr (Or.inl ⟨m, rfl⟩)⟩
  | newGame =>
      exact ⟨fun _ hng => absurd rfl hng, fun _ => Or.inl rfl⟩
  | startRound =>
      refine ⟨fun _ _ => ?_, fun hz => Or.inr (Or.inr ?_)⟩
      · simp [applyOp, startNewRound, countersMonotone]
      · simpa [applyOp, startNewRound, countersZero] using hz
  | humanMove mv cm =>
      cases hp : s.isPlaying with
      | false =>
          refine ⟨fun _ _ => ?_, fun hz => Or.inr (Or.inr ?_)⟩
          · simp [applyOp, handleHumanMove, hp, countersMonotone]
          · simpa [applyOp, handleHumanMove, hp] using hz
      | true =>
          refine ⟨fun _ _ => ?_, fun hz => ?_⟩
          · refine ⟨?_, ?_, ?_, ?_⟩ <;>
              simp [applyOp, handleHumanMove, hp, playRound]
          · exact absurd hz.1 (by simp [applyOp, handleHumanMove, hp])
  | cvcRound p1 p2 =>
      cases hp : s.isPlaying with
      | false =>
          refine ⟨fun _ _ => ?_, fun hz => Or.inr (Or.inr ?_)⟩
          · simp [applyOp, handleComputerVsComputer, hp, countersMonotone]
          · simpa [applyOp, handleComputerVsComputer, hp] using hz
      | true =>
          refine ⟨fun _ _ => ?_, fun hz => ?_⟩
          · refine ⟨?_, ?_, ?_, ?_⟩ <;>
              simp [applyOp, handleComputerVsComputer, hp, playRound]
          · exact absurd hz.1 (by simp [applyOp, handleComputerVsComputer, hp])

/-- Witness for amended C9 at the freshly started session with a concrete
round-completing operation. -/
theorem counters_monotone_and_reset_exclusivity_witness :
    ((∀ m, GameOp.humanMove Move.rock Move.scissors ≠ GameOp.modeChange m) →
      GameOp.humanMove Move.rock Move.scissors ≠ GameOp.newGame →
      countersMonotone (startNewRound initialGameState)
        (applyOp (GameOp.humanMove Move.rock Move.scissors)
          (startNewRound initialGameState))) ∧
    (countersZero (applyOp (GameOp.humanMove Move.rock Move.scissors)
        (startNewRound initialGameState)) →
      GameOp.humanMove Move.rock Move.scissors = GameOp.newGame ∨
      (∃ m, GameOp.humanMove Move.rock Move.scissors = GameOp.modeChange m) ∨
      countersZero (startNewRound initialGameState)) :=
  counters_monotone_and_reset_exclusivity (startNewRound initialGameState)
    (GameOp.humanMove Move.rock Move.scissors)

end Rps
